import Mathlib

/-!
Verification development for the StageCraft work-item lifecycle engine.

The definitions below are a shallow embedding of the stage-transition
validation engine (`validators.py`), the parts of the data model it reads
(`models.py`), and the commit step of the transition route (`routes.py`).

Modelling conventions:
* SQLAlchemy query results are carried on the work-item snapshot: `logs`
  is the list of transition-log rows for the item in canonical order
  (timestamp ascending), and `artifacts` is the list of artifact rows.
* Timestamps are natural numbers counting whole days; `datetime.utcnow()`
  becomes an explicit `now` parameter (the code only ever uses
  `(utcnow - start).days`).
* Python `None` becomes `Option`; Python string falsiness (`not s` true
  for both `None` and `""`) is modelled explicitly where the code uses it.
* The human-readable message strings become an inductive type with one
  constructor per distinct message site, carrying the dynamic parts.
-/

namespace StageCraft

/-- Python `str.strip()`: drop whitespace from both ends. Defined over
the character list so that it reduces inside the kernel. -/
def pyStrip (s : String) : String :=
  String.mk (((s.toList.dropWhile Char.isWhitespace).reverse.dropWhile
    Char.isWhitespace).reverse)

/-- Python `str.lower()` for the ASCII strings this system handles. -/
def pyLower (s : String) : String := String.mk (s.toList.map Char.toLower)

/-- One row of the `transition_logs` table, as read by the validators:
`from_stage`, `to_stage`, optional `reason`, and the timestamp. -/
structure TransitionLogEntry where
  from_stage : String
  to_stage : String
  reason : Option String
  transitioned_at : Nat
  deriving Repr, DecidableEq

/-- One row of the `artifacts` table, restricted to the columns the
validators read: the stage it was recorded for and its type. -/
structure ArtifactRec where
  stage : String
  artifact_type : String
  deriving Repr, DecidableEq

/-- Snapshot of a `WorkItem` row together with its queryable history
(the transition log in ascending timestamp order, and the artifact rows),
restricted to the fields the validators and the transition route read. -/
structure WorkItem where
  current_stage : String
  owner_id : Option Int
  regression_count : Nat
  transition_count : Nat
  last_transition_at : Option Nat
  created_at : Nat
  logs : List TransitionLogEntry
  artifacts : List ArtifactRec
  deriving Repr, DecidableEq

/-! ## Configuration (validators.py lines 9–57) -/

def STAGES : List String :=
  ["Requirement", "Design", "Implementation", "Testing", "Release"]

def REQUIRED_ARTIFACTS (stage : String) : Option (List String) :=
  if stage = "Requirement" then
    some ["Requirement Document", "Stakeholder Approval"]
  else if stage = "Design" then
    some ["High-Level Design Document", "Architecture Diagram", "Data Model"]
  else if stage = "Implementation" then
    some ["Source Code Reference", "Unit Test Coverage Report", "API Specification"]
  else if stage = "Testing" then
    some ["Test Plan", "Test Cases", "Test Execution Report", "Defect Summary"]
  else if stage = "Release" then
    some ["Release Notes", "Deployment Checklist", "Production Approval Record"]
  else none

def STAGE_TIMEOUT_DAYS (stage : String) : Option Nat :=
  if stage = "Requirement" then some 7
  else if stage = "Design" then some 10
  else if stage = "Implementation" then some 14
  else if stage = "Testing" then some 7
  else if stage = "Release" then some 3
  else none

def MIN_REGRESSION_REASON_LENGTH : Nat := 30
def MAX_ALLOWED_REGRESSIONS : Nat := 3
def MAX_ALLOWED_TRANSITIONS : Nat := 20

/-- The weak-reason keyword set. Python iterates a `set`, whose order is
unspecified; only membership matters to any verdict, so we fix the literal
order of the source. -/
def WEAK_REASON_INDICATORS : List String :=
  ["fixed", "ok", "done", "bug", "error", "oops", "typo", "???", "whatever"]

def REQUIRED_APPROVER_ROLES (stage : String) : Option (List String) :=
  if stage = "Requirement" then some ["Architect", "Admin", "Manager"]
  else if stage = "Design" then some ["Architect", "Admin", "Manager"]
  else if stage = "Implementation" then some ["Developer", "Admin", "Manager"]
  else if stage = "Testing" then some ["Tester", "Admin", "Manager"]
  else if stage = "Release" then some ["Manager", "Admin"]
  else none

/-! ## Stage registry helpers (validators.py lines 60–69) -/

def is_valid_stage (stage : String) : Bool := STAGES.contains stage

/-- `STAGES.index(stage)` guarded by validity; `-1` is the not-found
sentinel, as in the source. -/
def get_stage_index (stage : String) : Int :=
  if is_valid_stage stage then ((STAGES.indexOf stage : Nat) : Int) else -1

def get_required_artifacts (stage : String) : List String :=
  (REQUIRED_ARTIFACTS stage).getD []

/-! ## Transition history analyzer (validators.py lines 72–103) -/

/-- Default log entry used only to totalise positional indexing; every
index we ever use is in range. -/
def dfltEntry : TransitionLogEntry :=
  { from_stage := "", to_stage := "", reason := none, transitioned_at := 0 }

/-- `count_regressions`: for `i in range(1, len(logs))`, count the indices
where the stage index of `logs[i].to_stage` is strictly below that of
`logs[i-1].to_stage`. -/
def count_regressions (w : WorkItem) : Nat :=
  let logs := w.logs
  ((List.range logs.length).drop 1).countP (fun i =>
    get_stage_index ((logs.getD i dfltEntry).to_stage) <
      get_stage_index ((logs.getD (i - 1) dfltEntry).to_stage))

def count_total_transitions (w : WorkItem) : Nat := w.logs.length

/-- `get_time_in_current_stage` in days: start from the most recent log
entry whose `to_stage` is the current stage (the last such entry of the
ascending-ordered log), else from `created_at`. -/
def get_time_in_current_stage (w : WorkItem) (now : Nat) : Nat :=
  let last_entry := (w.logs.filter (fun e => e.to_stage = w.current_stage)).getLast?
  let start := match last_entry with
    | some e => e.transitioned_at
    | none => w.created_at
  now - start

/-- `was_stage_exited`: any record of leaving this stage in history. -/
def was_stage_exited (w : WorkItem) (stage : String) : Bool :=
  w.logs.any (fun e => e.from_stage = stage)

/-! ## Stage lock checker (validators.py lines 106–117) -/

/-- The messages returned by `is_stage_locked`. -/
inductive LockMsg where
  | cannotModifyPast (stage current : String)
  | alreadyExited (stage : String)
  | stillActive
  deriving Repr, DecidableEq

def is_stage_locked (w : WorkItem) (stage : String) : Bool × LockMsg :=
  if stage ≠ w.current_stage then
    (true, .cannotModifyPast stage w.current_stage)
  else if was_stage_exited w stage then
    (true, .alreadyExited stage)
  else
    (false, .stillActive)

/-! ## Artifact checks (validators.py lines 120–143, 242–254) -/

def has_duplicate_artifact (w : WorkItem) (stage artifact_type : String) : Bool :=
  (w.artifacts.filter (fun a =>
    a.stage = stage ∧ a.artifact_type = artifact_type)).length ≥ 1

/-- Is every character of `s` a lowercase hex digit `[0-9a-f]`? -/
def allLowerHex (s : String) : Bool :=
  s.toList.all (fun c => (Char.isDigit c) || ("abcdef".toList.contains c))

/-- The per-type reference format rules of `ARTIFACT_QUALITY_RULES`,
with the two regexes rendered as executable predicates: a full or short
git commit is 40 or 7 lowercase-hex characters; reports and specs must
start with `http://` or `https://`. `none` means the type has no rule. -/
def artifactQualityRule (artifact_type : String) : Option (String → Bool) :=
  if artifact_type = "Source Code Reference" then
    some (fun r => (r.length = 40 && allLowerHex r) || (r.length = 7 && allLowerHex r))
  else if artifact_type = "Unit Test Coverage Report" ∨ artifact_type = "API Specification"
      ∨ artifact_type = "Release Notes" ∨ artifact_type = "Deployment Checklist" then
    some (fun r => r.startsWith "http://" || r.startsWith "https://")
  else none

/-- Messages of `validate_artifact_quality`. -/
inductive QualityMsg where
  | noRule
  | referenceRequired (artifact_type : String)
  | invalidFormat (artifact_type : String)
  | formatValid
  deriving Repr, DecidableEq

def validate_artifact_quality (artifact_type : String) (reference : Option String) :
    Bool × QualityMsg :=
  match artifactQualityRule artifact_type with
  | none => (true, .noRule)
  | some rule =>
    match reference with
    | none => (false, .referenceRequired artifact_type)
    | some r =>
      if pyStrip r = "" then (false, .referenceRequired artifact_type)
      else if ¬ rule (pyStrip r) then (false, .invalidFormat artifact_type)
      else (true, .formatValid)

/-- `check_artifacts_complete`: `for_stage or work_item.current_stage`
(Python falsiness: `none` and the empty string both fall back to the
current stage), then the required types minus those present. -/
def check_artifacts_complete (w : WorkItem) (for_stage : Option String) :
    Bool × List String :=
  let stage := match for_stage with
    | some s => if s = "" then w.current_stage else s
    | none => w.current_stage
  let required := get_required_artifacts stage
  if required.isEmpty then (true, [])
  else
    let present := (w.artifacts.filter (fun a => a.stage = stage)).map
      (fun a => a.artifact_type)
    let missing := required.filter (fun r => ¬ present.contains r)
    (missing.isEmpty, missing)

/-! ## Approval-role check (validators.py lines 146–160) -/

/-- Messages of `validate_stage_approval`. -/
inductive ApprovalMsg where
  | roleRequired
  | noSpecialApproval
  | unauthorizedRole (roles : List String) (stage : String)
  | roleVerified
  deriving Repr, DecidableEq

/-- Python `not user_role` is true for `None` and for the empty string. -/
def roleFalsy : Option String → Bool
  | none => true
  | some s => s = ""

def validate_stage_approval (current_stage : String) (user_role : Option String) :
    Bool × ApprovalMsg :=
  if roleFalsy user_role then (false, .roleRequired)
  else
    match REQUIRED_APPROVER_ROLES current_stage with
    | none => (true, .noSpecialApproval)
    | some required_roles =>
      if ¬ required_roles.contains (user_role.getD "") then
        (false, .unauthorizedRole required_roles current_stage)
      else (true, .roleVerified)

/-! ## The transition validator (validators.py lines 163–239) -/

/-- Does the character list start with `sub`? -/
def listStartsWith : List Char → List Char → Bool
  | _, [] => true
  | [], _ :: _ => false
  | c :: cs, d :: ds => c = d && listStartsWith cs ds

/-- Does `sub` occur as a contiguous run inside the character list?
Executable model of the Python substring test `sub in s`. -/
def listHasSegment (sub : List Char) : List Char → Bool
  | [] => sub.isEmpty
  | c :: cs => listStartsWith (c :: cs) sub || listHasSegment sub cs

/-- Python `kw in s`. -/
def strContainsSub (s kw : String) : Bool := listHasSegment kw.toList s.toList

/-- The non-blocking warnings the validator can attach to its metadata:
an overdue current stage, or weak keywords found in a regression reason. -/
inductive Warning where
  | overdue (stage : String) (daysOver : Nat)
  | weakReason (keywords : List String)
  deriving Repr, DecidableEq

/-- The `extra` metadata dictionary: empty at the early gates, populated
with both counters after them, with an optional warning entry. -/
structure Meta where
  regression_count : Option Nat
  total_transitions : Option Nat
  warning : Option Warning
  deriving Repr, DecidableEq

/-- The empty dictionary returned by the early gates. -/
def Meta.empty : Meta :=
  { regression_count := none, total_transitions := none, warning := none }

/-- The message strings of `validate_transition`, one constructor per
return site, carrying the dynamic parts. -/
inductive TMsg where
  | forbiddenNotOwner
  | invalidStage (target : String)
  | internalStageError
  | alreadyInStage (stage : String)
  | maxTransitionsReached
  | cannotAdvanceMissing (missing : List String)
  | approvalFailed (m : ApprovalMsg)
  | stageSkipping (nextAllowed : String)
  | regressionUnauthorized
  | maxRegressionsReached
  | regressionReasonRequired
  | reasonTooShort
  | transitionApproved (target : String)
  | regressionAllowed (number : Nat)
  | invalidDirection
  deriving Repr, DecidableEq

/-- The ownership gate condition of validators.py lines 172–174:
fires only when both the owner and the requester are present, the ids
differ, and the role is not Admin (Python `user_role != "Admin"` is true
for `None` as well). -/
def ownershipBlocked (w : WorkItem) (user_role : Option String)
    (requester_id : Option Int) : Bool :=
  match w.owner_id, requester_id with
  | some o, some r => r ≠ o && user_role ≠ some "Admin"
  | _, _ => false

/-- Python `not regression_reason or not regression_reason.strip()`. -/
def reasonFalsy : Option String → Bool
  | none => true
  | some s => s = "" || pyStrip s = ""

/-- `validate_transition(work_item, target_stage, regression_reason,
user_role, requester_id)`, with the ambient clock passed as `now`.
Returns `(allowed, message, extra)`. -/
def validate_transition (w : WorkItem) (target_stage : String)
    (regression_reason : Option String) (user_role : Option String)
    (requester_id : Option Int) (now : Nat) : Bool × TMsg × Meta :=
  if ownershipBlocked w user_role requester_id then
    (false, .forbiddenNotOwner, Meta.empty)
  else if ¬ is_valid_stage target_stage then
    (false, .invalidStage target_stage, Meta.empty)
  else
    let current_stage := w.current_stage
    let curr_idx := get_stage_index current_stage
    let targ_idx := get_stage_index target_stage
    if curr_idx = -1 ∨ targ_idx = -1 then
      (false, .internalStageError, Meta.empty)
    else if curr_idx = targ_idx then
      (false, .alreadyInStage current_stage, Meta.empty)
    else
      let extra : Meta :=
        { regression_count := some (count_regressions w),
          total_transitions := some (count_total_transitions w),
          warning := none }
      if count_total_transitions w ≥ MAX_ALLOWED_TRANSITIONS then
        (false, .maxTransitionsReached, extra)
      else if targ_idx = curr_idx + 1 then
        let completeness := check_artifacts_complete w (some current_stage)
        if ¬ completeness.1 then
          (false, .cannotAdvanceMissing completeness.2, extra)
        else
          let approval := validate_stage_approval current_stage user_role
          if ¬ approval.1 then
            (false, .approvalFailed approval.2, extra)
          else
            let days_in_stage := get_time_in_current_stage w now
            let timeout := (STAGE_TIMEOUT_DAYS current_stage).getD 0
            let extra2 := if timeout > 0 && days_in_stage > timeout then
                { extra with warning := some (.overdue current_stage (days_in_stage - timeout)) }
              else extra
            (true, .transitionApproved target_stage, extra2)
      else if targ_idx > curr_idx + 1 then
        (false, .stageSkipping (STAGES.getD (curr_idx + 1).toNat ""), extra)
      else if targ_idx < curr_idx then
        if ¬ (user_role = some "Manager" ∨ user_role = some "Admin") then
          (false, .regressionUnauthorized, extra)
        else if count_regressions w ≥ MAX_ALLOWED_REGRESSIONS then
          (false, .maxRegressionsReached, extra)
        else if reasonFalsy regression_reason then
          (false, .regressionReasonRequired, extra)
        else
          let reason := pyStrip (regression_reason.getD "")
          if reason.length < MIN_REGRESSION_REASON_LENGTH then
            (false, .reasonTooShort, extra)
          else
            let weak := WEAK_REASON_INDICATORS.filter
              (fun kw => strContainsSub (pyLower reason) kw)
            let extra2 := if ¬ weak.isEmpty then
                { extra with warning := some (.weakReason weak) }
              else extra
            (true, .regressionAllowed (count_regressions w + 1), extra2)
      else
        (false, .invalidDirection, extra)

/-! ## Artifact admission (validators.py lines 257–273) -/

/-- Messages of `can_add_artifact`: lock reasons, duplicates, quality. -/
inductive AddMsg where
  | locked (m : LockMsg)
  | duplicate (artifact_type stage : String)
  | quality (m : QualityMsg)
  | canAdd
  deriving Repr, DecidableEq

def can_add_artifact (w : WorkItem) (stage artifact_type : String)
    (reference : Option String) : Bool × AddMsg :=
  let lockCheck := is_stage_locked w stage
  if lockCheck.1 then (false, .locked lockCheck.2)
  else if has_duplicate_artifact w stage artifact_type then
    (false, .duplicate artifact_type stage)
  else
    let quality := validate_artifact_quality artifact_type reference
    if ¬ quality.1 then (false, .quality quality.2)
    else (true, .canAdd)

/-! ## The transition route commit step (routes.py lines 537–556)

After an allowed verdict, the route appends one TransitionLog row —
with `reason` populated only when the move is backward — and sets
`current_stage`, then commits. It touches no other work-item field. -/

def transition_stage_commit (w : WorkItem) (target_stage : String)
    (regression_reason : Option String) (now : Nat) : WorkItem :=
  let log : TransitionLogEntry :=
    { from_stage := w.current_stage,
      to_stage := target_stage,
      reason := if get_stage_index target_stage < get_stage_index w.current_stage
        then regression_reason else none,
      transitioned_at := now }
  { w with current_stage := target_stage, logs := w.logs ++ [log] }

/-! ## Spec-side reformulation used by the regression-count claim -/

/-- The counting rule as the spec words it: the number of adjacent pairs
of consecutive log entries whose destination-stage index strictly
decreases from the earlier entry to the later one. -/
def count_regressions_spec (w : WorkItem) : Nat :=
  (w.logs.zip w.logs.tail).countP (fun p =>
    get_stage_index p.2.to_stage < get_stage_index p.1.to_stage)

/-! ## Concrete fixtures -/

/-- A work item freshly created in Requirement, with one artifact of type
Requirement Document recorded for Requirement. -/
def itemFreshOne : WorkItem :=
  { current_stage := "Requirement", owner_id := none, regression_count := 0,
    transition_count := 0, last_transition_at := none, created_at := 0,
    logs := [],
    artifacts := [{ stage := "Requirement", artifact_type := "Requirement Document" }] }

/-- The same fresh item with both required Requirement artifacts. -/
def itemFreshBoth : WorkItem :=
  { itemFreshOne with artifacts := itemFreshOne.artifacts ++
      [{ stage := "Requirement", artifact_type := "Stakeholder Approval" }] }

/-- A work item sitting in Implementation with empty history. -/
def itemImpl : WorkItem := { itemFreshOne with
  current_stage := "Implementation", artifacts := [] }

/-- A 30-plus-character regression justification with no weak keyword. -/
def reasonLong : String := "rolled back due to failed load test results"

def entryFwd : TransitionLogEntry :=
  { from_stage := "Requirement", to_stage := "Design", reason := none,
    transitioned_at := 0 }

/-- An item whose log already holds 20 transitions. -/
def itemQuota : WorkItem := { itemFreshBoth with
  current_stage := "Design", logs := List.replicate 20 entryFwd }

/-- An item that exited Requirement once and then regressed back into it. -/
def itemExited : WorkItem := { itemFreshBoth with logs := [
  { from_stage := "Requirement", to_stage := "Design", reason := none,
    transitioned_at := 0 },
  { from_stage := "Design", to_stage := "Requirement", reason := some reasonLong,
    transitioned_at := 1 }] }

/-! ## Helper lemmas -/

theorem get_stage_index_nonneg (s : String) (h : is_valid_stage s = true) :
    0 ≤ get_stage_index s := by
  simp only [get_stage_index, h, if_true]
  exact Int.natCast_nonneg _

/-- Counting a pairwise predicate by positional indices 1..n-1 against
indices i-1, i equals counting it over the zipped consecutive pairs. -/
theorem countP_range_pairs {α : Type} (P : α → α → Bool) (d : α) (l : List α) :
    ((List.range l.length).drop 1).countP
        (fun i => P (l.getD (i - 1) d) (l.getD i d))
      = (l.zip l.tail).countP (fun p => P p.1 p.2) := by
  have key : ∀ m : List α,
      (List.range (m.length - 1)).countP
          (fun i => P (m.getD i d) (m.getD (i + 1) d))
        = (m.zip m.tail).countP (fun p => P p.1 p.2) := by
    intro m
    induction m with
    | nil => simp
    | cons a t ih =>
      cases t with
      | nil => simp
      | cons b t' =>
        simp only [List.length_cons, Nat.add_sub_cancel] at ih ⊢
        rw [List.range_succ_eq_map, List.countP_cons, List.countP_map]
        have hfun : ((fun i =>
              P ((a :: b :: t').getD i d) ((a :: b :: t').getD (i + 1) d)) ∘ Nat.succ)
            = fun i => P ((b :: t').getD i d) ((b :: t').getD (i + 1) d) := by
          funext i
          simp [Function.comp]
        rw [hfun, ih]
        simp [List.zip_cons_cons, List.countP_cons, add_comm]
  cases l with
  | nil => simp
  | cons a t =>
    have h1 : (List.range (a :: t).length).drop 1
        = (List.range t.length).map Nat.succ := by
      rw [List.length_cons, List.range_succ_eq_map]
      simp
    rw [h1, List.countP_map]
    have h2 : ((fun i => P ((a :: t).getD (i - 1) d) ((a :: t).getD i d)) ∘ Nat.succ)
        = fun i => P ((a :: t).getD i d) ((a :: t).getD (i + 1) d) := by
      funext i
      simp
    rw [h2]
    have h3 : (a :: t).length - 1 = t.length := by simp
    rw [← h3, key]

/-! ## Claims -/

/-- Claim C1. The spec requires the commit step of an allowed transition
to bump `last_transition_at` and to increment the denormalized
`regression_count` and `transition_count` in lockstep with the appended
log row. The route does not: committing a transition appends the log row
and moves `current_stage` while leaving both counters and
`last_transition_at` untouched, so after one allowed committed transition
on a fresh item the stored `transition_count` is 0 while the log derives
1. -/
theorem C1_commit_leaves_counters_stale :
    (∀ (w : WorkItem) (t : String) (r : Option String) (n : Nat),
        (transition_stage_commit w t r n).transition_count = w.transition_count ∧
        (transition_stage_commit w t r n).regression_count = w.regression_count ∧
        (transition_stage_commit w t r n).last_transition_at = w.last_transition_at ∧
        count_total_transitions (transition_stage_commit w t r n)
          = count_total_transitions w + 1) ∧
    ((validate_transition itemFreshBoth "Design" none (some "Architect") none 0).1
        = true ∧
      (transition_stage_commit itemFreshBoth "Design" none 5).transition_count = 0 ∧
      (transition_stage_commit itemFreshBoth "Design" none 5).last_transition_at
        = none ∧
      count_total_transitions (transition_stage_commit itemFreshBoth "Design" none 5)
        = 1) := by
  constructor
  · intro w t r n
    refine ⟨rfl, rfl, rfl, ?_⟩
    simp [transition_stage_commit, count_total_transitions]
  · exact ⟨by decide, by decide, by decide, by decide⟩

/-- Claim C2, counterexample. With only the Requirement Document artifact
recorded, the forward move from Requirement to Design with role Architect
is rejected for the missing Stakeholder Approval artifact, so the claimed
verdict (allowed) is false at this input. -/
theorem C2_counterexample :
    (validate_transition itemFreshOne "Design" none (some "Architect") none 0).1
        = false ∧
    (validate_transition itemFreshOne "Design" none (some "Architect") none 0).2.1
        = .cannotAdvanceMissing ["Stakeholder Approval"] := by
  exact ⟨by decide, by decide⟩

/-- Claim C2, amended. The Requirement stage requires two artifact types,
Requirement Document and Stakeholder Approval; once both are recorded for
a freshly created item, the forward move to Design with role Architect is
allowed with `meta.regression_count = 0`. -/
theorem C2_amended :
    (validate_transition itemFreshBoth "Design" none (some "Architect") none 0).1
        = true ∧
    (validate_transition itemFreshBoth "Design" none (some "Architect") none 0).2.2.regression_count
        = some 0 := by
  exact ⟨by decide, by decide⟩

/-- Claim C3, counterexample. Rejections at the ownership gate, the
stage-validity gate, and the no-op gate all return the empty metadata
dictionary, which contains neither counter, so the claim that every
outcome carries both counters is false at these inputs. -/
theorem C3_counterexample :
    (validate_transition { itemFreshBoth with owner_id := some 1 } "Design" none
        (some "Architect") (some 2) 0).2.2 = Meta.empty ∧
    (validate_transition itemFreshBoth "Banana" none (some "Architect") none 0).2.2
        = Meta.empty ∧
    (validate_transition itemFreshBoth "Requirement" none (some "Architect") none
        0).2.2 = Meta.empty ∧
    Meta.empty.regression_count = none ∧ Meta.empty.total_transitions = none := by
  exact ⟨by decide, by decide, by decide, rfl, rfl⟩

/-- Claim C3, amended. Once the ownership, stage-validity and no-op gates
have passed (valid distinct target, valid current stage, ownership gate
not triggered), the returned metadata carries the derived regression
count and total transition count on every outcome, allowed or rejected;
the three early gates themselves return empty metadata. -/
theorem C3_amended_meta (w : WorkItem) (target : String) (reason : Option String)
    (role : Option String) (req : Option Int) (now : Nat)
    (hown : ownershipBlocked w role req = false)
    (htarg : is_valid_stage target = true)
    (hcurr : is_valid_stage w.current_stage = true)
    (hne : get_stage_index w.current_stage ≠ get_stage_index target) :
    (validate_transition w target reason role req now).2.2.regression_count
        = some (count_regressions w) ∧
    (validate_transition w target reason role req now).2.2.total_transitions
        = some (count_total_transitions w) := by
  have h1 := get_stage_index_nonneg _ hcurr
  have h2 := get_stage_index_nonneg _ htarg
  have h3 : ¬ (get_stage_index w.current_stage = -1
      ∨ get_stage_index target = -1) := by
    push_neg
    omega
  have hc1 : ¬ (ownershipBlocked w role req = true) := by simp [hown]
  have hc2 : ¬ ¬ is_valid_stage target = true := by simp [htarg]
  unfold validate_transition
  rw [if_neg hc1, if_neg hc2]
  dsimp only
  rw [if_neg h3, if_neg hne]
  by_cases h5 : count_total_transitions w ≥ MAX_ALLOWED_TRANSITIONS
  · rw [if_pos h5]
    exact ⟨rfl, rfl⟩
  rw [if_neg h5]
  by_cases h6 : get_stage_index target = get_stage_index w.current_stage + 1
  · rw [if_pos h6]
    by_cases h7 : ¬ (check_artifacts_complete w (some w.current_stage)).1 = true
    · rw [if_pos h7]
      exact ⟨rfl, rfl⟩
    rw [if_neg h7]
    by_cases h8 : ¬ (validate_stage_approval w.current_stage role).1 = true
    · rw [if_pos h8]
      exact ⟨rfl, rfl⟩
    rw [if_neg h8]
    refine ⟨?_, ?_⟩ <;> (split <;> rfl)
  rw [if_neg h6]
  by_cases h9 : get_stage_index target > get_stage_index w.current_stage + 1
  · rw [if_pos h9]
    exact ⟨rfl, rfl⟩
  rw [if_neg h9]
  by_cases h10 : get_stage_index target < get_stage_index w.current_stage
  · rw [if_pos h10]
    by_cases h11 : ¬ (role = some "Manager" ∨ role = some "Admin")
    · rw [if_pos h11]
      exact ⟨rfl, rfl⟩
    rw [if_neg h11]
    by_cases h12 : count_regressions w ≥ MAX_ALLOWED_REGRESSIONS
    · rw [if_pos h12]
      exact ⟨rfl, rfl⟩
    rw [if_neg h12]
    by_cases h13 : reasonFalsy reason = true
    · rw [if_pos h13]
      exact ⟨rfl, rfl⟩
    rw [if_neg h13]
    by_cases h14 : (pyStrip (reason.getD "")).length < MIN_REGRESSION_REASON_LENGTH
    · rw [if_pos h14]
      exact ⟨rfl, rfl⟩
    rw [if_neg h14]
    refine ⟨?_, ?_⟩ <;> (split <;> rfl)
  rw [if_neg h10]
  exact ⟨rfl, rfl⟩

/-- Witness for C3_amended_meta at a concrete rejected input: a fresh
item with both Requirement artifacts, target Design, but no role. -/
theorem C3_amended_meta_witness :
    (validate_transition itemFreshBoth "Design" none none none 0).2.2.regression_count
        = some (count_regressions itemFreshBoth) ∧
    (validate_transition itemFreshBoth "Design" none none none 0).2.2.total_transitions
        = some (count_total_transitions itemFreshBoth) :=
  C3_amended_meta itemFreshBoth "Design" none none none 0 (by decide) (by decide)
    (by decide) (by decide)

/-! ## Further fixtures for the regression-policy claims -/

/-- A 29-character justification (after stripping). -/
def reason29 : String := "abcdefghijklmnopqrstuvwxyz123"

/-- A 30-character justification (after stripping). -/
def reason30 : String := "abcdefghijklmnopqrstuvwxyz1234"

/-- A long justification containing the weak keyword `fixed`. -/
def reasonWeak : String := "rolled back since previous fixed attempt was incomplete"

/-- An item in Implementation whose log already shows three regressions. -/
def itemRegr3 : WorkItem := { itemImpl with logs := [
  { from_stage := "Requirement", to_stage := "Design", reason := none,
    transitioned_at := 0 },
  { from_stage := "Design", to_stage := "Requirement", reason := some reasonLong,
    transitioned_at := 1 },
  { from_stage := "Requirement", to_stage := "Design", reason := none,
    transitioned_at := 2 },
  { from_stage := "Design", to_stage := "Requirement", reason := some reasonLong,
    transitioned_at := 3 },
  { from_stage := "Requirement", to_stage := "Design", reason := none,
    transitioned_at := 4 },
  { from_stage := "Design", to_stage := "Requirement", reason := some reasonLong,
    transitioned_at := 5 },
  { from_stage := "Requirement", to_stage := "Implementation", reason := none,
    transitioned_at := 6 }] }

/-! ## More helper lemmas -/

theorem exists_of_reasonFalsy_false {r : Option String}
    (h : reasonFalsy r = false) : ∃ s, r = some s := by
  cases r with
  | none => simp [reasonFalsy] at h
  | some s => exact ⟨s, rfl⟩

theorem strip_len_zero_of_reasonFalsy_true {s : String}
    (h : reasonFalsy (some s) = true) : (pyStrip s).length = 0 := by
  have hd : s = "" ∨ pyStrip s = "" := by simpa [reasonFalsy] using h
  rcases hd with h1 | h1
  · subst h1
    rfl
  · rw [h1]
    rfl

/-- Every rejected evaluation carries no warning: each return site of
`validate_transition` either reports allowed, or hands back metadata with
an empty warning slot. -/
theorem validate_allowed_or_no_warning (w : WorkItem) (target : String)
    (reason : Option String) (role : Option String) (req : Option Int)
    (now : Nat) :
    (validate_transition w target reason role req now).1 = true ∨
    (validate_transition w target reason role req now).2.2.warning = none := by
  unfold validate_transition
  dsimp only
  by_cases hg1 : ownershipBlocked w role req = true
  · rw [if_pos hg1]
    exact Or.inr rfl
  rw [if_neg hg1]
  by_cases hg2 : ¬ is_valid_stage target = true
  · rw [if_pos hg2]
    exact Or.inr rfl
  rw [if_neg hg2]
  by_cases hg3 : get_stage_index w.current_stage = -1 ∨ get_stage_index target = -1
  · rw [if_pos hg3]
    exact Or.inr rfl
  rw [if_neg hg3]
  by_cases hg4 : get_stage_index w.current_stage = get_stage_index target
  · rw [if_pos hg4]
    exact Or.inr rfl
  rw [if_neg hg4]
  by_cases hg5 : count_total_transitions w ≥ MAX_ALLOWED_TRANSITIONS
  · rw [if_pos hg5]
    exact Or.inr rfl
  rw [if_neg hg5]
  by_cases hg6 : get_stage_index target = get_stage_index w.current_stage + 1
  · rw [if_pos hg6]
    by_cases hg7 : ¬ (check_artifacts_complete w (some w.current_stage)).1 = true
    · rw [if_pos hg7]
      exact Or.inr rfl
    rw [if_neg hg7]
    by_cases hg8 : ¬ (validate_stage_approval w.current_stage role).1 = true
    · rw [if_pos hg8]
      exact Or.inr rfl
    rw [if_neg hg8]
    exact Or.inl rfl
  rw [if_neg hg6]
  by_cases hg9 : get_stage_index target > get_stage_index w.current_stage + 1
  · rw [if_pos hg9]
    exact Or.inr rfl
  rw [if_neg hg9]
  by_cases hg10 : get_stage_index target < get_stage_index w.current_stage
  · rw [if_pos hg10]
    by_cases hg11 : ¬ (role = some "Manager" ∨ role = some "Admin")
    · rw [if_pos hg11]
      exact Or.inr rfl
    rw [if_neg hg11]
    by_cases hg12 : count_regressions w ≥ MAX_ALLOWED_REGRESSIONS
    · rw [if_pos hg12]
      exact Or.inr rfl
    rw [if_neg hg12]
    by_cases hg13 : reasonFalsy reason = true
    · rw [if_pos hg13]
      exact Or.inr rfl
    rw [if_neg hg13]
    by_cases hg14 : (pyStrip (reason.getD "")).length < MIN_REGRESSION_REASON_LENGTH
    · rw [if_pos hg14]
      exact Or.inr rfl
    rw [if_neg hg14]
    exact Or.inl rfl
  rw [if_neg hg10]
  exact Or.inr rfl

/-- Claim C4, counterexample. A backward move of skip distance 2, from
Implementation to Requirement, with role Manager and a long reason, is
allowed — so the claim that skip distance greater than 1 is always
rejected in both directions is false at this input. -/
theorem C4_counterexample :
    get_stage_index "Implementation" - get_stage_index "Requirement" = 2 ∧
    (validate_transition itemImpl "Requirement" (some reasonLong) (some "Manager")
        none 0).1 = true := by
  exact ⟨by decide, by decide⟩

/-- Claim C4, amended. Forward moves whose target index exceeds the
current index by more than one are always rejected, but backward moves
are not distance-restricted: a backward move of distance 2 passes the
direction gate and can be allowed subject to the regression gates. -/
theorem C4_amended_forward_skip_only :
    (∀ (w : WorkItem) (target : String) (reason role : Option String)
        (req : Option Int) (now : Nat),
      get_stage_index w.current_stage + 1 < get_stage_index target →
      (validate_transition w target reason role req now).1 = false) ∧
    (validate_transition itemImpl "Requirement" (some reasonLong) (some "Manager")
        none 0).1 = true := by
  refine ⟨?_, by decide⟩
  intro w target reason role req now h
  unfold validate_transition
  dsimp only
  by_cases hg1 : ownershipBlocked w role req = true
  · rw [if_pos hg1]
  rw [if_neg hg1]
  by_cases hg2 : ¬ is_valid_stage target = true
  · rw [if_pos hg2]
  rw [if_neg hg2]
  by_cases hg3 : get_stage_index w.current_stage = -1 ∨ get_stage_index target = -1
  · rw [if_pos hg3]
  rw [if_neg hg3]
  by_cases hg4 : get_stage_index w.current_stage = get_stage_index target
  · rw [if_pos hg4]
  rw [if_neg hg4]
  by_cases hg5 : count_total_transitions w ≥ MAX_ALLOWED_TRANSITIONS
  · rw [if_pos hg5]
  rw [if_neg hg5]
  by_cases hg6 : get_stage_index target = get_stage_index w.current_stage + 1
  · omega
  rw [if_neg hg6, if_pos h]

/-- Witness for the universally quantified part of C4: a forward skip
from Requirement straight to Implementation is rejected. -/
theorem C4_amended_forward_skip_only_witness :
    get_stage_index itemFreshBoth.current_stage + 1
        < get_stage_index "Implementation" ∧
    (validate_transition itemFreshBoth "Implementation" none (some "Architect")
        none 0).1 = false :=
  ⟨by decide, C4_amended_forward_skip_only.1 itemFreshBoth "Implementation" none
    (some "Architect") none 0 (by decide)⟩

/-- Claim C5. Once the ownership gate passes, the stages are valid, the
transition quota is not yet reached and the move is backward, the
validator allows it exactly when the acting role is Manager or Admin, the
derived regression count is strictly below 3, and a justification was
supplied whose stripped length is at least 30. -/
theorem C5_regression_gate (w : WorkItem) (target : String)
    (reason : Option String) (role : Option String) (req : Option Int)
    (now : Nat)
    (hown : ownershipBlocked w role req = false)
    (hcurr : is_valid_stage w.current_stage = true)
    (htarg : is_valid_stage target = true)
    (hquota : count_total_transitions w < MAX_ALLOWED_TRANSITIONS)
    (hback : get_stage_index target < get_stage_index w.current_stage) :
    (validate_transition w target reason role req now).1 = true ↔
      ((role = some "Manager" ∨ role = some "Admin")
        ∧ count_regressions w < MAX_ALLOWED_REGRESSIONS
        ∧ ∃ s, reason = some s
            ∧ MIN_REGRESSION_REASON_LENGTH ≤ (pyStrip s).length) := by
  have h1 := get_stage_index_nonneg _ hcurr
  have h2 := get_stage_index_nonneg _ htarg
  have h3 : ¬ (get_stage_index w.current_stage = -1
      ∨ get_stage_index target = -1) := by
    push_neg
    omega
  have hne : get_stage_index w.current_stage ≠ get_stage_index target := by omega
  have hc1 : ¬ (ownershipBlocked w role req = true) := by simp [hown]
  have hc2 : ¬ ¬ is_valid_stage target = true := by simp [htarg]
  have hq : ¬ (count_total_transitions w ≥ MAX_ALLOWED_TRANSITIONS) := by omega
  have hf : ¬ (get_stage_index target = get_stage_index w.current_stage + 1) := by
    omega
  have hsk : ¬ (get_stage_index target > get_stage_index w.current_stage + 1) := by
    omega
  unfold validate_transition
  rw [if_neg hc1, if_neg hc2]
  dsimp only
  rw [if_neg h3, if_neg hne, if_neg hq, if_neg hf, if_neg hsk, if_pos hback]
  by_cases h11 : ¬ (role = some "Manager" ∨ role = some "Admin")
  · rw [if_pos h11]
    exact iff_of_false (by simp) (fun hr => h11 hr.1)
  rw [if_neg h11]
  have hrole := not_not.mp h11
  by_cases h12 : count_regressions w ≥ MAX_ALLOWED_REGRESSIONS
  · rw [if_pos h12]
    refine iff_of_false (by simp) ?_
    rintro ⟨-, hlt, -⟩
    omega
  rw [if_neg h12]
  by_cases h13 : reasonFalsy reason = true
  · rw [if_pos h13]
    refine iff_of_false (by simp) ?_
    rintro ⟨-, -, s, hs, hlen⟩
    subst hs
    have h0 := strip_len_zero_of_reasonFalsy_true h13
    have h30 : MIN_REGRESSION_REASON_LENGTH = 30 := rfl
    omega
  rw [if_neg h13]
  have hfalse : reasonFalsy reason = false := by
    cases hx : reasonFalsy reason
    · rfl
    · exact absurd hx h13
  obtain ⟨s, rfl⟩ := exists_of_reasonFalsy_false hfalse
  by_cases h14 : (pyStrip ((some s).getD "")).length < MIN_REGRESSION_REASON_LENGTH
  · rw [if_pos h14]
    refine iff_of_false (by simp) ?_
    rintro ⟨-, -, s2, hs2, hlen⟩
    have hss : s2 = s := by
      simpa using hs2.symm
    subst hss
    exact absurd hlen (by simpa using h14)
  rw [if_neg h14]
  exact iff_of_true rfl ⟨hrole, by omega, s, rfl, by simpa using Nat.le_of_not_lt h14⟩

/-- Witness for C5 at concrete inputs: the 30-character stripped reason is
accepted (via the theorem), the 29-character one is rejected, and with
three regressions already logged the fourth attempt is rejected despite a
valid long reason and the Manager role. -/
theorem C5_regression_gate_witness :
    (validate_transition itemImpl "Design" (some reason30) (some "Manager")
        none 0).1 = true ∧
    (validate_transition itemImpl "Design" (some reason29) (some "Manager")
        none 0).1 = false ∧
    count_regressions itemRegr3 = 3 ∧
    (validate_transition itemRegr3 "Design" (some reasonLong) (some "Manager")
        none 0).1 = false := by
  refine ⟨?_, by decide, by decide, by decide⟩
  exact (C5_regression_gate itemImpl "Design" (some reason30) (some "Manager")
    none 0 (by decide) (by decide) (by decide) (by decide) (by decide)).mpr
    ⟨Or.inl rfl, by decide, reason30, rfl, by decide⟩

/-- Claim C6. The stage-lock checker reports a stage locked exactly when
it differs from the current stage or the log records any exit from it;
consequently, once a stage has ever been exited, artifact addition to it
is rejected forever, even after regressing back into it. -/
theorem C6_stage_lock_characterization :
    (∀ (w : WorkItem) (stage : String),
      (is_stage_locked w stage).1 = true ↔
        (stage ≠ w.current_stage ∨ ∃ e ∈ w.logs, e.from_stage = stage)) ∧
    (∀ (w : WorkItem) (stage artifact_type : String) (reference : Option String),
      (∃ e ∈ w.logs, e.from_stage = stage) →
      (can_add_artifact w stage artifact_type reference).1 = false) := by
  have key : ∀ (w : WorkItem) (stage : String),
      (is_stage_locked w stage).1 = true ↔
        (stage ≠ w.current_stage ∨ ∃ e ∈ w.logs, e.from_stage = stage) := by
    intro w stage
    unfold is_stage_locked was_stage_exited
    by_cases hs : stage ≠ w.current_stage
    · rw [if_pos hs]
      simp [hs]
    · rw [if_neg hs]
      push_neg at hs
      constructor
      · intro hlock
        refine Or.inr ?_
        by_cases hex : w.logs.any (fun e => e.from_stage = stage) = true
        · simpa [List.any_eq_true] using hex
        · rw [if_neg hex] at hlock
          simp at hlock
      · rintro (hne | hex)
        · exact absurd hs hne
        · have hany : w.logs.any (fun e => e.from_stage = stage) = true := by
            simpa [List.any_eq_true] using hex
          rw [if_pos hany]
  refine ⟨key, ?_⟩
  intro w stage artifact_type reference hex
  have hlock : (is_stage_locked w stage).1 = true :=
    (key w stage).mpr (Or.inr hex)
  unfold can_add_artifact
  dsimp only
  rw [if_pos hlock]

/-- Witness for C6 at a concrete input: the item regressed back into
Requirement after exiting it once, and adding an artifact there is
refused. -/
theorem C6_stage_lock_characterization_witness :
    (∃ e ∈ itemExited.logs, e.from_stage = "Requirement") ∧
    (can_add_artifact itemExited "Requirement" "ExtraNote" none).1 = false :=
  ⟨by decide, C6_stage_lock_characterization.2 itemExited "Requirement" "ExtraNote"
    none (by decide)⟩

/-- Claim C7. The regression counter of the history analyzer equals the
count of adjacent pairs of consecutive log entries whose destination
stage index strictly decreases — the comparison is between consecutive
logged destinations, not within a single record. -/
theorem C7_count_regressions_adjacent_pairs (w : WorkItem) :
    count_regressions w = count_regressions_spec w := by
  unfold count_regressions count_regressions_spec
  exact countP_range_pairs
    (fun a b => decide (get_stage_index b.to_stage < get_stage_index a.to_stage))
    dfltEntry w.logs

/-- Witness for C7 on a concrete mixed history with three regressions. -/
theorem C7_count_regressions_adjacent_pairs_witness :
    count_regressions itemRegr3 = count_regressions_spec itemRegr3 ∧
    count_regressions itemRegr3 = 3 :=
  ⟨C7_count_regressions_adjacent_pairs itemRegr3, by decide⟩

/-- Claim C8. Once 20 transitions are logged, every transition request is
rejected regardless of direction, role, ownership, artifacts or reason;
an unknown target stage and a no-op target are still rejected on their
own grounds by the earlier gates. -/
theorem C8_transition_quota :
    (∀ (w : WorkItem) (target : String) (reason role : Option String)
        (req : Option Int) (now : Nat),
      count_total_transitions w ≥ MAX_ALLOWED_TRANSITIONS →
      (validate_transition w target reason role req now).1 = false) ∧
    (∀ (w : WorkItem) (target : String) (reason role : Option String)
        (req : Option Int) (now : Nat),
      ownershipBlocked w role req = false →
      is_valid_stage target = false →
      validate_transition w target reason role req now
        = (false, .invalidStage target, Meta.empty)) ∧
    (∀ (w : WorkItem) (reason role : Option String) (req : Option Int)
        (now : Nat),
      ownershipBlocked w role req = false →
      is_valid_stage w.current_stage = true →
      validate_transition w w.current_stage reason role req now
        = (false, .alreadyInStage w.current_stage, Meta.empty)) := by
  refine ⟨?_, ?_, ?_⟩
  · intro w target reason role req now hq
    unfold validate_transition
    dsimp only
    by_cases hg1 : ownershipBlocked w role req = true
    · rw [if_pos hg1]
    rw [if_neg hg1]
    by_cases hg2 : ¬ is_valid_stage target = true
    · rw [if_pos hg2]
    rw [if_neg hg2]
    by_cases hg3 : get_stage_index w.current_stage = -1
        ∨ get_stage_index target = -1
    · rw [if_pos hg3]
    rw [if_neg hg3]
    by_cases hg4 : get_stage_index w.current_stage = get_stage_index target
    · rw [if_pos hg4]
    rw [if_neg hg4, if_pos hq]
  · intro w target reason role req now hown hv
    have hc1 : ¬ (ownershipBlocked w role req = true) := by simp [hown]
    have hc2 : ¬ is_valid_stage target = true := by simp [hv]
    unfold validate_transition
    rw [if_neg hc1, if_pos hc2]
  · intro w reason role req now hown hcurr
    have hc1 : ¬ (ownershipBlocked w role req = true) := by simp [hown]
    have hc2 : ¬ ¬ is_valid_stage w.current_stage = true := by simp [hcurr]
    have h1 := get_stage_index_nonneg _ hcurr
    have h3 : ¬ (get_stage_index w.current_stage = -1
        ∨ get_stage_index w.current_stage = -1) := by
      push_neg
      omega
    unfold validate_transition
    rw [if_neg hc1, if_neg hc2]
    dsimp only
    rw [if_neg h3, if_pos rfl]

/-- Witness for C8 on an item with 20 logged transitions: the quota
rejection, and the unknown-stage and no-op rejections on their own
grounds. -/
theorem C8_transition_quota_witness :
    (validate_transition itemQuota "Implementation" none (some "Manager") none
        0).1 = false ∧
    validate_transition itemQuota "Banana" none (some "Manager") none 0
      = (false, .invalidStage "Banana", Meta.empty) ∧
    validate_transition itemQuota "Design" none (some "Manager") none 0
      = (false, .alreadyInStage "Design", Meta.empty) :=
  ⟨C8_transition_quota.1 itemQuota "Implementation" none (some "Manager") none 0
      (by decide),
    C8_transition_quota.2.1 itemQuota "Banana" none (some "Manager") none 0
      (by decide) (by decide),
    C8_transition_quota.2.2 itemQuota none (some "Manager") none 0
      (by decide) (by decide)⟩

/-- Claim C9. Warnings never change a verdict: whenever the metadata of a
validation result carries a warning, the result is allowed; no rejected
evaluation carries a warning. -/
theorem C9_warnings_never_block (w : WorkItem) (target : String)
    (reason : Option String) (role : Option String) (req : Option Int)
    (now : Nat)
    (h : (validate_transition w target reason role req now).2.2.warning ≠ none) :
    (validate_transition w target reason role req now).1 = true :=
  (validate_allowed_or_no_warning w target reason role req now).resolve_right h

/-- Witness for C9: a regression with a long reason containing the weak
keyword `fixed` carries a weak-reason warning and is allowed. -/
theorem C9_warnings_never_block_witness :
    (validate_transition itemImpl "Design" (some reasonWeak) (some "Manager")
        none 0).2.2.warning ≠ none ∧
    (validate_transition itemImpl "Design" (some reasonWeak) (some "Manager")
        none 0).1 = true :=
  ⟨by decide, C9_warnings_never_block itemImpl "Design" (some reasonWeak)
    (some "Manager") none 0 (by decide)⟩

/-- Claim C10. When the requester identity is absent, the ownership gate
is skipped entirely: the verdict is identical whatever the stored owner
is, and in particular a transition can be allowed with a non-Admin role
on an item that has a non-null owner. -/
theorem C10_requester_none_skips_ownership :
    (∀ (w : WorkItem) (target : String) (reason role : Option String)
        (o : Option Int) (now : Nat),
      validate_transition { w with owner_id := o } target reason role none now
        = validate_transition { w with owner_id := none } target reason role
            none now) ∧
    (validate_transition { itemFreshBoth with owner_id := some 7 } "Design" none
        (some "Architect") none 0).1 = true := by
  refine ⟨?_, by decide⟩
  intro w target reason role o now
  cases o with
  | none => rfl
  | some x => rfl

end StageCraft
